import Mathlib

/-!
Shallow embedding of the matrix-rain program (matrix_config.py,
matrix_renderer.py, ui_controls.py).

Python floats are modelled as exact rationals, characters as Unicode
codepoints (natural numbers), and every random draw is passed in
explicitly as an oracle argument, so that all definitions are
executable and deterministic.
-/

/-- Enumeration of available color modes (matrix_config.ColorMode). -/
inductive ColorMode where
  | GREEN
  | CUSTOM
  | RAINBOW
deriving DecidableEq, Repr

/-- Enumeration of available character sets (matrix_config.CharacterSet). -/
inductive CharacterSet where
  | LATIN
  | KATAKANA
  | MIXED
  | BINARY
  | CUSTOM
deriving DecidableEq, Repr

/-- State of a MatrixConfig dataclass instance: the thirteen data fields
plus the cached character list (codepoints). -/
structure MatrixConfig where
  width : ℤ
  height : ℤ
  fullscreen : Bool
  rain_speed : ℚ
  rain_density : ℚ
  char_set : CharacterSet
  custom_chars : List ℕ
  char_size_min : ℤ
  char_size_max : ℤ
  color_mode : ColorMode
  base_color : ℤ × ℤ × ℤ
  fading_speed : ℚ
  speed_variation : ℚ
  cachedChars : List ℕ
deriving DecidableEq, Repr

/-- Codepoints of string.ascii_letters (lowercase then uppercase). -/
def asciiLetters : List ℕ :=
  (List.range 26).map (fun i => 97 + i) ++ (List.range 26).map (fun i => 65 + i)

/-- Codepoints of string.digits. -/
def asciiDigits : List ℕ :=
  (List.range 10).map (fun i => 48 + i)

/-- Codepoints of the punctuation string appearing in the MIXED branch of
MatrixConfig._update_char_set. -/
def mixedPunctuation : List ℕ :=
  [33, 64, 35, 36, 37, 94, 38, 42, 40, 41, 95, 43, 45, 61,
   91, 93, 123, 125, 124, 59, 58, 44, 46, 60, 62, 63]

/-- Codepoints of the Katakana block slice chr(0x30A0 + i) for i in range(96). -/
def katakanaChars : List ℕ :=
  (List.range 96).map (fun i => 0x30A0 + i)

/-- Character list built by the MIXED (default) branch of
MatrixConfig._update_char_set. -/
def mixedChars : List ℕ :=
  (asciiLetters ++ asciiDigits ++ mixedPunctuation) ++ katakanaChars

/-- Embedding of MatrixConfig._update_char_set: the list the method stores
into the cache, as a function of the current configuration.  The CUSTOM
branch requires a non-empty custom_chars; otherwise the method falls
through to the MIXED palette. -/
def MatrixConfig.updateCharSet (c : MatrixConfig) : List ℕ :=
  match c.char_set with
  | CharacterSet.LATIN => asciiLetters ++ asciiDigits
  | CharacterSet.KATAKANA => (List.range 96).map (fun i => 0x30A0 + i)
  | CharacterSet.BINARY => [48, 49]
  | CharacterSet.CUSTOM => if c.custom_chars ≠ [] then c.custom_chars else mixedChars
  | CharacterSet.MIXED => mixedChars

/-- Embedding of MatrixConfig.get_random_char.  The random draw of
random.choice is modelled by an index idx, reduced modulo the palette
size; an empty palette (where random.choice would raise) yields none.
If the cache is empty the palette is lazily rebuilt first. -/
def MatrixConfig.getRandomChar (c : MatrixConfig) (idx : ℕ) : Option ℕ :=
  let chars := if c.cachedChars = [] then c.updateCharSet else c.cachedChars
  chars.get? (idx % chars.length)

/-- Pydantic bound check for the width field (ge=640, le=7680). -/
def widthOk (c : MatrixConfig) : Bool := decide (640 ≤ c.width ∧ c.width ≤ 7680)

/-- Pydantic bound check for the height field (ge=480, le=4320). -/
def heightOk (c : MatrixConfig) : Bool := decide (480 ≤ c.height ∧ c.height ≤ 4320)

/-- Pydantic bound check for rain_speed (ge=0.1, le=5.0). -/
def rainSpeedOk (c : MatrixConfig) : Bool :=
  decide (mkRat 1 10 ≤ c.rain_speed ∧ c.rain_speed ≤ 5)

/-- Pydantic bound check for rain_density (ge=0.1, le=2.0). -/
def rainDensityOk (c : MatrixConfig) : Bool :=
  decide (mkRat 1 10 ≤ c.rain_density ∧ c.rain_density ≤ 2)

/-- Pydantic bound check for char_size_min (ge=6, le=40). -/
def charSizeMinOk (c : MatrixConfig) : Bool :=
  decide (6 ≤ c.char_size_min ∧ c.char_size_min ≤ 40)

/-- Pydantic bound check for char_size_max (ge=6, le=40). -/
def charSizeMaxOk (c : MatrixConfig) : Bool :=
  decide (6 ≤ c.char_size_max ∧ c.char_size_max ≤ 40)

/-- Pydantic bound check for fading_speed (ge=0.01, le=0.5). -/
def fadingSpeedOk (c : MatrixConfig) : Bool :=
  decide (mkRat 1 100 ≤ c.fading_speed ∧ c.fading_speed ≤ mkRat 1 2)

/-- Pydantic bound check for speed_variation (ge=0.0, le=2.0). -/
def speedVariationOk (c : MatrixConfig) : Bool :=
  decide (0 ≤ c.speed_variation ∧ c.speed_variation ≤ 2)

/-- Embedding of the validator max_size_greater_than_min: it rejects when
char_size_min is present in values (i.e. passed its own field bounds)
and char_size_max is strictly smaller than it. -/
def maxSizeGreaterThanMin (c : MatrixConfig) : Bool :=
  !(charSizeMinOk c && decide (c.char_size_max < c.char_size_min))

/-- Embedding of the validator validate_custom_chars: it rejects when
char_set (always present, being a plain enum field) is CUSTOM and
custom_chars is empty. -/
def validateCustomChars (c : MatrixConfig) : Bool :=
  !(decide (c.char_set = CharacterSet.CUSTOM) && decide (c.custom_chars = []))

/-- Embedding of construction of a MatrixConfigModel from the fields of a
MatrixConfig, as done in MatrixConfig._validate: true exactly when every
field bound and both validators accept. -/
def modelValidate (c : MatrixConfig) : Bool :=
  widthOk c && heightOk c && rainSpeedOk c && rainDensityOk c &&
  validateCustomChars c && charSizeMinOk c && charSizeMaxOk c &&
  maxSizeGreaterThanMin c && fadingSpeedOk c && speedVariationOk c

/-- Fields of a freshly constructed MatrixConfig() before __post_init__
populates the cache: the dataclass defaults. -/
def defaultFields : MatrixConfig :=
  { width := 800
    height := 600
    fullscreen := false
    rain_speed := 1
    rain_density := 1
    char_set := CharacterSet.MIXED
    custom_chars := []
    char_size_min := 10
    char_size_max := 20
    color_mode := ColorMode.GREEN
    base_color := (0, 255, 0)
    fading_speed := mkRat 7 100
    speed_variation := mkRat 1 2
    cachedChars := [] }

/-- State of MatrixConfig() after __post_init__ ran _validate (which the
defaults pass) and _update_char_set. -/
def defaultConfig : MatrixConfig :=
  { defaultFields with cachedChars := defaultFields.updateCharSet }

/-- Embedding of MatrixConfig._validate as a state transformer: on success
the object is unchanged and no error is raised (flag true); on failure
the object is reset to the default configuration via self.__init__() and
a ValueError is raised (flag false). -/
def MatrixConfig.validateStep (c : MatrixConfig) : MatrixConfig × Bool :=
  if modelValidate c then (c, true) else (defaultConfig, false)

/-- Partial update passed to MatrixConfig.update as kwargs: one optional
value per settable attribute. -/
structure ConfigUpdate where
  width : Option ℤ := none
  height : Option ℤ := none
  fullscreen : Option Bool := none
  rain_speed : Option ℚ := none
  rain_density : Option ℚ := none
  char_set : Option CharacterSet := none
  custom_chars : Option (List ℕ) := none
  char_size_min : Option ℤ := none
  char_size_max : Option ℤ := none
  color_mode : Option ColorMode := none
  base_color : Option (ℤ × ℤ × ℤ) := none
  fading_speed : Option ℚ := none
  speed_variation : Option ℚ := none
deriving Repr

/-- Embedding of the setattr loop of MatrixConfig.update: every supplied
keyword overwrites the corresponding attribute; the cache is untouched. -/
def applyKwargs (c : MatrixConfig) (u : ConfigUpdate) : MatrixConfig :=
  { width := u.width.getD c.width
    height := u.height.getD c.height
    fullscreen := u.fullscreen.getD c.fullscreen
    rain_speed := u.rain_speed.getD c.rain_speed
    rain_density := u.rain_density.getD c.rain_density
    char_set := u.char_set.getD c.char_set
    custom_chars := u.custom_chars.getD c.custom_chars
    char_size_min := u.char_size_min.getD c.char_size_min
    char_size_max := u.char_size_max.getD c.char_size_max
    color_mode := u.color_mode.getD c.color_mode
    base_color := u.base_color.getD c.base_color
    fading_speed := u.fading_speed.getD c.fading_speed
    speed_variation := u.speed_variation.getD c.speed_variation
    cachedChars := c.cachedChars }

/-- Embedding of MatrixConfig.update: apply the kwargs, then validate; on
failure _validate resets the object to defaults and raises (flag false),
so the cache rebuild is never reached; on success the cache is rebuilt
exactly when char_set or custom_chars was among the kwargs. -/
def MatrixConfig.update (c : MatrixConfig) (u : ConfigUpdate) : MatrixConfig × Bool :=
  let c1 := applyKwargs c u
  if modelValidate c1 then
    (if u.char_set.isSome || u.custom_chars.isSome then
      { c1 with cachedChars := c1.updateCharSet }
    else c1, true)
  else
    (defaultConfig, false)

/-- Tuple of the thirteen data attributes of a MatrixConfig (everything
except the derived character cache). -/
def dataFields (c : MatrixConfig) :
    ℤ × ℤ × Bool × ℚ × ℚ × CharacterSet × List ℕ × ℤ × ℤ ×
    ColorMode × (ℤ × ℤ × ℤ) × ℚ × ℚ :=
  (c.width, c.height, c.fullscreen, c.rain_speed, c.rain_density,
   c.char_set, c.custom_chars, c.char_size_min, c.char_size_max,
   c.color_mode, c.base_color, c.fading_speed, c.speed_variation)

/-- Truncation toward zero, the semantics of the Python int() conversion
applied to a float. -/
def pyTrunc (q : ℚ) : ℤ :=
  if 0 ≤ q then Int.floor q else -Int.floor (-q)

/-- Round-half-to-even on an exact rational, the semantics of the Python
built-in round() with no digits argument. -/
def pyRound (q : ℚ) : ℤ :=
  let f := Int.floor q
  let r := q - (f : ℚ)
  if r < 1/2 then f
  else if 1/2 < r then f + 1
  else if f % 2 = 0 then f else f + 1

/-- Fractional part, the semantics of the Python expression x % 1.0. -/
def fmod1 (q : ℚ) : ℚ := q - (Int.floor q : ℚ)

/-- State of a RainDrop dataclass instance (matrix_renderer.RainDrop);
the glyph is a codepoint. -/
structure RainDrop where
  x : ℤ
  y : ℚ
  char : ℕ
  speed : ℚ
  color : ℤ × ℤ × ℤ
  brightness : ℚ
  size : ℤ
deriving DecidableEq, Repr

/-- Embedding of RainDrop.update.  The random.random() < 0.02 draw is the
boolean changeChar and the random.choice index inside get_random_char is
charIdx; position, glyph and brightness evolve exactly as in the code. -/
def RainDrop.update (d : RainDrop) (config : MatrixConfig)
    (changeChar : Bool) (charIdx : ℕ) : RainDrop :=
  { d with
    y := d.y + d.speed * config.rain_speed
    char := if changeChar then (config.getRandomChar charIdx).getD d.char else d.char
    brightness :=
      if d.brightness > 1/5 then d.brightness - 1/100 * config.fading_speed
      else d.brightness }

/-- Embedding of RainDrop.is_offscreen: true when y exceeds the screen
height. -/
def RainDrop.is_offscreen (d : RainDrop) (height : ℤ) : Bool :=
  decide ((height : ℚ) < d.y)

/-- State of a RainColumn dataclass instance (matrix_renderer.RainColumn). -/
structure RainColumn where
  x : ℤ
  drops : List RainDrop
  speed : ℚ
  length : ℤ
  active : Bool
  next_spawn_time : ℤ
  color : ℤ × ℤ × ℤ
  size : ℤ
deriving DecidableEq, Repr

/-- Random draws consumed by one call to RainColumn.update: the per-drop
glyph re-roll draws, the spawned glyph choice, the uniform draw in the
spawn delay, the two activity-transition draws and the reactivation
delay randint(0, 1000). -/
structure ColumnOracle where
  dropChange : ℕ → Bool × ℕ
  spawnCharIdx : ℕ
  spawnRand : ℚ
  deactivate : Bool
  reactivate : Bool
  reactivateDelay : ℤ

/-- Embedding of the first two statements of RainColumn.update: advance
every existing drop (each with its own oracle draws, indexed by list
position) and discard the off-screen ones. -/
def evolveDrops (config : MatrixConfig) (o : ColumnOracle)
    (drops : List RainDrop) : List RainDrop :=
  (drops.enum.map (fun p =>
    RainDrop.update p.2 config (o.dropChange p.1).1 (o.dropChange p.1).2)).filter
    (fun d => !(d.is_offscreen config.height))

/-- Embedding of RainColumn._hsv_to_rgb. -/
def hsvToRgb (h s v : ℚ) : ℤ × ℤ × ℤ :=
  if s = 0 then (pyTrunc (v * 255), pyTrunc (v * 255), pyTrunc (v * 255))
  else
    let i0 : ℤ := pyTrunc (h * 6)
    let f : ℚ := h * 6 - (i0 : ℚ)
    let p : ℚ := v * (1 - s)
    let q : ℚ := v * (1 - s * f)
    let t : ℚ := v * (1 - s * (1 - f))
    let i : ℤ := i0 % 6
    if i = 0 then (pyTrunc (v * 255), pyTrunc (t * 255), pyTrunc (p * 255))
    else if i = 1 then (pyTrunc (q * 255), pyTrunc (v * 255), pyTrunc (p * 255))
    else if i = 2 then (pyTrunc (p * 255), pyTrunc (v * 255), pyTrunc (t * 255))
    else if i = 3 then (pyTrunc (p * 255), pyTrunc (q * 255), pyTrunc (v * 255))
    else if i = 4 then (pyTrunc (t * 255), pyTrunc (p * 255), pyTrunc (v * 255))
    else (pyTrunc (v * 255), pyTrunc (p * 255), pyTrunc (q * 255))

/-- Embedding of RainColumn.update: advance and cull drops, spawn a new
drop at the tail of the list when the column is active, the spawn
deadline has passed and the column is below its maximum length, then
apply the dormancy and reactivation transitions in source order. -/
def RainColumn.update (col : RainColumn) (config : MatrixConfig)
    (current_time : ℤ) (o : ColumnOracle) : RainColumn :=
  let drops2 := evolveDrops config o col.drops
  let canSpawn := col.active && decide (col.next_spawn_time ≤ current_time) &&
    decide ((drops2.length : ℤ) < col.length)
  let newColor :=
    if config.color_mode = ColorMode.RAINBOW then
      hsvToRgb (fmod1 ((current_time : ℚ) / 10000 + (col.x : ℚ) / 50)) 1 1
    else if config.color_mode = ColorMode.CUSTOM then config.base_color
    else col.color
  let newDrop : RainDrop :=
    { x := col.x
      y := 0
      char := (config.getRandomChar o.spawnCharIdx).getD 0
      speed := col.speed
      color := newColor
      brightness := 1
      size := col.size }
  let drops3 := if canSpawn then drops2 ++ [newDrop] else drops2
  let color3 := if canSpawn then newColor else col.color
  let nst3 :=
    if canSpawn then
      current_time + pyTrunc (50 / config.rain_density * (o.spawnRand * (1/2) + 3/4))
    else col.next_spawn_time
  let active4 := if o.deactivate then false else col.active
  let active5 := if !active4 && o.reactivate then true else active4
  let nst5 := if !active4 && o.reactivate then current_time + o.reactivateDelay else nst3
  { x := col.x
    drops := drops3
    speed := col.speed
    length := col.length
    active := active5
    next_spawn_time := nst5
    color := color3
    size := col.size }

/-- Iterated RainColumn.update: tick k uses oracle os k at time ts k. -/
def columnIter (config : MatrixConfig) (os : ℕ → ColumnOracle) (ts : ℕ → ℤ)
    (col : RainColumn) : ℕ → RainColumn
  | 0 => col
  | n + 1 => (columnIter config os ts col n).update config (ts n) (os n)

/-- Iterated RainDrop.update with a fixed configuration; the oracle gives
tick k its glyph re-roll draws. -/
def dropIter (config : MatrixConfig) (oracle : ℕ → Bool × ℕ)
    (d : RainDrop) : ℕ → RainDrop
  | 0 => d
  | n + 1 =>
    (dropIter config oracle d n).update config (oracle n).1 (oracle n).2

/-- Color scaling applied in MatrixRenderer._render_column to every drop
that is not the head glyph: each component multiplied by the brightness,
truncated to int and clamped to at most 255. -/
def scaledColor (d : RainDrop) : ℤ × ℤ × ℤ :=
  (min 255 (pyTrunc ((d.color.1 : ℚ) * d.brightness)),
   min 255 (pyTrunc ((d.color.2.1 : ℚ) * d.brightness)),
   min 255 (pyTrunc ((d.color.2.2 : ℚ) * d.brightness)))

/-- Color chosen by MatrixRenderer._render_column for the drop at list
index i of a column: full white for index 0 of an active column, the
brightness-scaled color otherwise. -/
def renderColor (col : RainColumn) (i : ℕ) (d : RainDrop) : ℤ × ℤ × ℤ :=
  if i = 0 ∧ col.active = true then (255, 255, 255) else scaledColor d

/-- Colors at which MatrixRenderer._render_column draws the drops of a
column, in list order. -/
def renderColumnColors (col : RainColumn) : List (ℤ × ℤ × ℤ) :=
  col.drops.enum.map (fun p => renderColor col p.1 p.2)

/-- Simulation state of a MatrixRenderer: its columns and the timestamp
of the previous tick. -/
structure MatrixRenderer where
  columns : List RainColumn
  last_time : ℤ

/-- Embedding of MatrixRenderer.update: record the new tick time, and if
the elapsed time exceeds 500 ms skip the whole simulation step,
otherwise update every column. -/
def MatrixRenderer.update (r : MatrixRenderer) (config : MatrixConfig)
    (current_time : ℤ) (os : ℕ → ColumnOracle) : MatrixRenderer :=
  let time_delta := current_time - r.last_time
  if time_delta > 500 then { r with last_time := current_time }
  else
    { columns := r.columns.enum.map (fun p => p.2.update config current_time (os p.1))
      last_time := current_time }

/-- Column spacing recomputed by MatrixRenderer.reset_matrix. -/
def resetSpacing (config : MatrixConfig) : ℤ :=
  max 10 (config.char_size_max + 2)

/-- Random draws consumed by MatrixRenderer.reset_matrix, indexed by the
column number. -/
structure ResetOracle where
  jitter : ℕ → ℤ
  speedRand : ℕ → ℚ
  lengthRand : ℕ → ℤ
  sizeRand : ℕ → ℤ
  activeRand : ℕ → ℚ
  delayRand : ℕ → ℤ

/-- Embedding of MatrixRenderer.reset_matrix: the list of freshly created
columns (Python // is floor division, modelled by Int.fdiv). -/
def resetMatrix (config : MatrixConfig) (o : ResetOracle) : List RainColumn :=
  let spacing := resetSpacing config
  let num_columns := Int.fdiv config.width spacing
  (List.range num_columns.toNat).map (fun (i : ℕ) =>
    { x := (i : ℤ) * spacing + o.jitter i
      drops := []
      speed := 1 + o.speedRand i
      length := o.lengthRand i
      active := decide (o.activeRand i > 1/5)
      next_spawn_time := o.delayRand i
      color := config.base_color
      size := o.sizeRand i })

/-- Rectangle with position and size, the part of a pygame.Rect used by
the widgets. -/
structure Rect where
  x : ℤ
  y : ℤ
  w : ℤ
  h : ℤ
deriving DecidableEq, Repr

/-- Embedding of pygame.Rect.collidepoint: a point is inside when it lies
within the rectangle, right and bottom edges excluded. -/
def Rect.collidepoint (r : Rect) (px py : ℤ) : Bool :=
  decide (r.x ≤ px ∧ px < r.x + r.w ∧ r.y ≤ py ∧ py < r.y + r.h)

/-- Mouse events consumed by Slider.handle_event. -/
inductive UIEvent where
  | mouseButtonDown (button : ℕ) (px py : ℤ)
  | mouseButtonUp (button : ℕ) (px py : ℤ)
  | mouseMotion (px py : ℤ)
deriving DecidableEq, Repr

/-- State of a Slider widget (ui_controls.Slider). -/
structure Slider where
  rect : Rect
  min_val : ℚ
  max_val : ℚ
  value : ℚ
  handle_pos : ℤ
  dragging : Bool
  active : Bool
deriving DecidableEq, Repr

/-- Handle rectangle of a slider, as built in Slider.handle_event. -/
def Slider.handleRect (s : Slider) : Rect :=
  { x := s.rect.x + s.handle_pos - 5, y := s.rect.y, w := 10, h := s.rect.h }

/-- Embedding of Slider.handle_event.  The result is the new slider
state, the argument of the callback invocation if one happened, and the
handled flag the method returns.  On a motion sample while dragging the
pointer x is clamped to the track, the value is recomputed linearly,
rounded to two decimal places and passed to the callback. -/
def Slider.handleEvent (s : Slider) (e : UIEvent) : Slider × Option ℚ × Bool :=
  match e with
  | UIEvent.mouseButtonDown b px py =>
    if b = 1 ∧ s.handleRect.collidepoint px py = true then
      ({ s with dragging := true, active := true }, none, true)
    else (s, none, false)
  | UIEvent.mouseButtonUp b _ _ =>
    if b = 1 ∧ s.dragging = true then
      ({ s with dragging := false, active := false }, none, true)
    else (s, none, false)
  | UIEvent.mouseMotion px _ =>
    if s.dragging = true then
      let rel_x : ℤ := max 0 (min (px - s.rect.x) s.rect.w)
      let value1 : ℚ :=
        s.min_val + (s.max_val - s.min_val) * ((rel_x : ℚ) / (s.rect.w : ℚ))
      let value2 : ℚ := (pyRound (value1 * 100) : ℚ) / 100
      ({ s with handle_pos := rel_x, value := value2 }, some value2, true)
    else (s, none, false)

/-- Oracle with no glyph re-rolls and no activity transitions, used to
instantiate column updates on concrete inputs. -/
def oracleW : ColumnOracle := ⟨fun _ => (false, 0), 0, 0, false, false, 0⟩

/-- Concrete reset oracle for instantiating reset_matrix. -/
def resetOracleW : ResetOracle :=
  ⟨fun _ => 0, fun _ => 0, fun _ => 5, fun _ => 10, fun _ => 0, fun _ => 0⟩

/-- Concrete raindrop with full brightness and zero speed. -/
def dropUnit : RainDrop := ⟨0, 0, 65, 0, (0, 255, 0), 1, 16⟩

/-- Concrete half-bright raindrop that has fallen to y=10 (the oldest
drop of colHead, at list index 0). -/
def dropOld : RainDrop := ⟨0, 10, 65, 1, (0, 255, 0), mkRat 1 2, 16⟩

/-- Concrete half-bright raindrop at the top of the screen (the most
recently spawned drop of colHead, at the tail of the list). -/
def dropNew : RainDrop := ⟨0, 0, 66, 1, (0, 255, 0), mkRat 1 2, 16⟩

/-- Active column holding dropOld (index 0, oldest) and dropNew (index 1,
most recently spawned). -/
def colHead : RainColumn := ⟨0, [dropOld, dropNew], 1, 10, true, 0, (0, 255, 0), 16⟩

/-- Dormant column holding a single drop. -/
def colDormant : RainColumn := ⟨0, [dropUnit], 1, 10, false, 0, (0, 255, 0), 16⟩

/-- Valid non-default configuration: defaults with rain_speed raised to 2. -/
def priorC1 : MatrixConfig := { defaultConfig with rain_speed := 2 }

/-- Partial update carrying an out-of-range width. -/
def updWidthBad : ConfigUpdate := { width := some 100 }

/-- Partial update carrying a valid rain_speed. -/
def updSpeedOk : ConfigUpdate := { rain_speed := some 3 }

/-- Default configuration with char_size_max lowered to 18. -/
def cfg18 : MatrixConfig := { defaultConfig with char_size_max := 18 }

/-- Default configuration with char_size_max = 7 < char_size_min = 10. -/
def cfgMaxLtMin : MatrixConfig := { defaultConfig with char_size_max := 7 }

/-- Default configuration with char_size_max = char_size_min = 10. -/
def cfgEqSizes : MatrixConfig := { defaultConfig with char_size_max := 10 }

/-- Default configuration switched to the CUSTOM character set while
custom_chars is still empty. -/
def cfgCustomEmpty : MatrixConfig := { defaultConfig with char_set := CharacterSet.CUSTOM }

/-- Default configuration with CUSTOM character set and two custom
characters. -/
def cfgCustomAB : MatrixConfig :=
  { defaultConfig with char_set := CharacterSet.CUSTOM, custom_chars := [65, 66] }

/-- Renderer with no columns whose previous tick happened at time 0. -/
def rendererW : MatrixRenderer := ⟨[], 0⟩

/-- Dragging slider over the track [10, 110] with bounds 1 and 5. -/
def sliderTenth : Slider := ⟨⟨10, 0, 100, 30⟩, 1, 5, 2, 0, true, true⟩

/-- Dragging slider whose min_val 0.001 does not lie on the 2-decimal
grid. -/
def sliderBad : Slider := ⟨⟨0, 0, 100, 30⟩, mkRat 1 1000, 1, mkRat 1 1000, 0, true, false⟩

theorem updateCharSet_ne_nil (c : MatrixConfig) : c.updateCharSet ≠ [] := by
  cases h : c.char_set with
  | LATIN => simp only [MatrixConfig.updateCharSet, h]; decide
  | KATAKANA => simp only [MatrixConfig.updateCharSet, h]; decide
  | MIXED => simp only [MatrixConfig.updateCharSet, h]; decide
  | BINARY => simp only [MatrixConfig.updateCharSet, h]; decide
  | CUSTOM =>
    simp only [MatrixConfig.updateCharSet, h]
    split <;> first | assumption | decide

theorem get_mod_isSome (l : List ℕ) (h : l ≠ []) (idx : ℕ) :
    (l.get? (idx % l.length)).isSome = true := by
  have hlen : 0 < l.length := List.length_pos.mpr h
  have hlt : idx % l.length < l.length := Nat.mod_lt _ hlen
  rw [List.get?_eq_get hlt]
  rfl

/-- C10: for every configuration state (any combination of char_set and
custom_chars, including CUSTOM with an empty custom_chars, which falls
through to the MIXED palette), the rebuilt palette is non-empty, and
get_random_char — which lazily rebuilds an empty cache before choosing —
always returns a character. -/
theorem getRandomChar_total (c : MatrixConfig) (idx : ℕ) :
    c.updateCharSet ≠ [] ∧ (c.getRandomChar idx).isSome = true := by
  refine ⟨updateCharSet_ne_nil c, ?_⟩
  simp only [MatrixConfig.getRandomChar]
  split
  · exact get_mod_isSome _ (updateCharSet_ne_nil c) idx
  · exact get_mod_isSome _ (by assumption) idx

/-- C8: a configuration with char_size_max strictly below char_size_min
never validates, and the max_size_greater_than_min validator accepts
whenever the two sizes are equal (in particular with both inside the
6..40 range). -/
theorem charSize_validation :
    (∀ c : MatrixConfig, c.char_size_max < c.char_size_min →
      modelValidate c = false) ∧
    (∀ c : MatrixConfig, c.char_size_max = c.char_size_min →
      6 ≤ c.char_size_min → c.char_size_min ≤ 40 →
      maxSizeGreaterThanMin c = true) := by
  constructor
  · intro c h
    by_cases hmin : charSizeMinOk c = true
    · have hd : decide (c.char_size_max < c.char_size_min) = true := decide_eq_true h
      simp [modelValidate, maxSizeGreaterThanMin, hmin, hd]
    · rw [Bool.not_eq_true] at hmin
      simp [modelValidate, hmin]
  · intro c he _ _
    simp [maxSizeGreaterThanMin, he]

/-- Witness for charSize_validation: the default configuration with
char_size_max lowered to 7 fails validation, and with the sizes both
equal to 10 the size validator accepts. -/
theorem charSize_validation_witness :
    modelValidate cfgMaxLtMin = false ∧ maxSizeGreaterThanMin cfgEqSizes = true :=
  ⟨charSize_validation.1 cfgMaxLtMin (by decide),
   charSize_validation.2 cfgEqSizes (by decide) (by decide) (by decide)⟩

/-- C9: a configuration with char_set CUSTOM and EMPTY custom_chars never
validates (the model raises a ValidationError), and the
validate_custom_chars validator accepts any CUSTOM configuration whose
custom_chars is non-empty. -/
theorem customChars_validation :
    (∀ c : MatrixConfig, c.char_set = CharacterSet.CUSTOM →
      c.custom_chars = [] → modelValidate c = false) ∧
    (∀ c : MatrixConfig, c.char_set = CharacterSet.CUSTOM →
      c.custom_chars ≠ [] → validateCustomChars c = true) := by
  constructor
  · intro c h1 h2
    simp [modelValidate, validateCustomChars, h1, h2]
  · intro c h1 h2
    simp [validateCustomChars, h1, h2]

/-- Witness for customChars_validation: CUSTOM with empty custom_chars
fails validation, CUSTOM with two characters passes the validator. -/
theorem customChars_validation_witness :
    modelValidate cfgCustomEmpty = false ∧ validateCustomChars cfgCustomAB = true :=
  ⟨customChars_validation.1 cfgCustomEmpty (by decide) (by decide),
   customChars_validation.2 cfgCustomAB (by decide) (by decide)⟩

/-- C6: when the elapsed time since the previous tick exceeds the 500 ms
large-gap threshold, MatrixRenderer.update skips the simulation step
entirely and every column (and hence every drop) is left unchanged. -/
theorem update_skips_large_gap (r : MatrixRenderer) (config : MatrixConfig)
    (current_time : ℤ) (os : ℕ → ColumnOracle)
    (h : 500 < current_time - r.last_time) :
    (r.update config current_time os).columns = r.columns := by
  simp [MatrixRenderer.update, h]

/-- Witness for update_skips_large_gap: a renderer last ticked at time 0
and updated at time 501 keeps its (empty) column list. -/
theorem update_skips_large_gap_witness :
    (rendererW.update defaultConfig 501 (fun _ => oracleW)).columns = [] :=
  update_skips_large_gap rendererW defaultConfig 501 (fun _ => oracleW) (by decide)

/-- C5: reset_matrix recomputes the column spacing as
max(10, char_size_max + 2) and creates floor(width / spacing) columns;
with width 800 and char_size_max 18 the spacing is 20 and 40 columns are
created. -/
theorem reset_matrix_column_count (config : MatrixConfig) (o : ResetOracle)
    (h : 0 ≤ config.width) :
    resetSpacing config = max 10 (config.char_size_max + 2) ∧
    ((resetMatrix config o).length : ℤ) = Int.fdiv config.width (resetSpacing config) ∧
    resetSpacing cfg18 = 20 ∧ (resetMatrix cfg18 o).length = 40 := by
  refine ⟨rfl, ?_, by decide, ?_⟩
  · have hsp : (0 : ℤ) ≤ resetSpacing config :=
      le_trans (by norm_num) (le_max_left 10 (config.char_size_max + 2))
    have hnn : 0 ≤ Int.fdiv config.width (resetSpacing config) :=
      Int.fdiv_nonneg h hsp
    simp [resetMatrix, Int.toNat_of_nonneg hnn]
  · simp only [resetMatrix, List.length_map, List.length_range]
    decide

/-- Witness for reset_matrix_column_count on the default configuration
and a concrete oracle. -/
theorem reset_matrix_column_count_witness :
    ((resetMatrix defaultConfig resetOracleW).length : ℤ) =
      Int.fdiv defaultConfig.width (resetSpacing defaultConfig) ∧
    (resetMatrix cfg18 resetOracleW).length = 40 :=
  ⟨(reset_matrix_column_count defaultConfig resetOracleW (by decide)).2.1,
   (reset_matrix_column_count defaultConfig resetOracleW (by decide)).2.2.2⟩

theorem update_inactive_drops (col : RainColumn) (config : MatrixConfig)
    (t : ℤ) (o : ColumnOracle) (h : col.active = false) :
    (col.update config t o).drops = evolveDrops config o col.drops := by
  simp [RainColumn.update, h]

theorem evolveDrops_length_le (config : MatrixConfig) (o : ColumnOracle)
    (drops : List RainDrop) :
    (evolveDrops config o drops).length ≤ drops.length := by
  refine le_trans (List.length_filter_le _ _) ?_
  simp [List.enum_length]

theorem columnIter_inactive_length (config : MatrixConfig)
    (os : ℕ → ColumnOracle) (ts : ℕ → ℤ) (col : RainColumn) :
    ∀ n : ℕ, (∀ k, k < n → (columnIter config os ts col k).active = false) →
      (columnIter config os ts col n).drops.length ≤ col.drops.length := by
  intro n
  induction n with
  | zero => intro _; exact le_refl _
  | succ m ih =>
    intro h
    have hstep : columnIter config os ts col (m + 1)
        = (columnIter config os ts col m).update config (ts m) (os m) := rfl
    rw [hstep, update_inactive_drops _ _ _ _ (h m (Nat.lt_succ_self m))]
    exact le_trans (evolveDrops_length_le _ _ _)
      (ih (fun k hk => h k (Nat.lt_succ_of_lt hk)))

/-- C4: while a column stays inactive, no tick ever spawns a drop: over
any run of ticks throughout which the column is inactive, every step
merely advances and culls the existing drops (the spawn branch is never
taken) and the drop list never grows. -/
theorem dormant_never_spawns (config : MatrixConfig) (os : ℕ → ColumnOracle)
    (ts : ℕ → ℤ) (col : RainColumn) (n : ℕ)
    (h : ∀ k, k < n → (columnIter config os ts col k).active = false) :
    (∀ k, k < n → (columnIter config os ts col (k + 1)).drops
        = evolveDrops config (os k) (columnIter config os ts col k).drops) ∧
    (columnIter config os ts col n).drops.length ≤ col.drops.length := by
  constructor
  · intro k hk
    exact update_inactive_drops _ _ _ _ (h k hk)
  · exact columnIter_inactive_length config os ts col n h

/-- Witness for dormant_never_spawns: a dormant one-drop column updated
twice with oracles that never reactivate it keeps at most one drop. -/
theorem dormant_never_spawns_witness :
    (columnIter defaultConfig (fun _ => oracleW) (fun _ => 0) colDormant 2).drops.length
      ≤ colDormant.drops.length :=
  (dormant_never_spawns defaultConfig (fun _ => oracleW) (fun _ => 0) colDormant 2
    (by intro k hk; interval_cases k <;> decide)).2

/-- C1 counterexample: starting from the valid configuration priorC1
(rain_speed = 2), the rejected update width=100 leaves the object at the
DEFAULT rain_speed 1 rather than reverting it to its prior value 2, so
the update does not restore the state held immediately before the call. -/
theorem update_reverts_to_prior_counterexample :
    modelValidate priorC1 = true ∧
    (MatrixConfig.update priorC1 updWidthBad).2 = false ∧
    (MatrixConfig.update priorC1 updWidthBad).1.rain_speed ≠ priorC1.rain_speed := by
  decide

/-- C1 as amended: MatrixConfig.update applies the supplied fields and
validates the result; on failure it surfaces an error and resets the
object to the DEFAULT configuration (not the prior state), and on
success all supplied fields commit. -/
theorem update_atomic_or_reset (c : MatrixConfig) (u : ConfigUpdate) :
    (modelValidate (applyKwargs c u) = false →
      MatrixConfig.update c u = (defaultConfig, false)) ∧
    (modelValidate (applyKwargs c u) = true →
      (MatrixConfig.update c u).2 = true ∧
      dataFields (MatrixConfig.update c u).1 = dataFields (applyKwargs c u)) := by
  constructor
  · intro h
    simp [MatrixConfig.update, h]
  · intro h
    refine ⟨by simp [MatrixConfig.update, h], ?_⟩
    by_cases hb : (u.char_set.isSome || u.custom_chars.isSome) = true
    · simp [MatrixConfig.update, h, hb, dataFields]
    · rw [Bool.not_eq_true] at hb
      simp [MatrixConfig.update, h, hb, dataFields]

/-- Witness for update_atomic_or_reset: the invalid width update resets
priorC1 to the defaults with an error, and a valid rain_speed update on
the default configuration commits all supplied fields. -/
theorem update_atomic_or_reset_witness :
    MatrixConfig.update priorC1 updWidthBad = (defaultConfig, false) ∧
    ((MatrixConfig.update defaultConfig updSpeedOk).2 = true ∧
      dataFields (MatrixConfig.update defaultConfig updSpeedOk).1 =
        dataFields (applyKwargs defaultConfig updSpeedOk)) :=
  ⟨(update_atomic_or_reset priorC1 updWidthBad).1 (by decide),
   (update_atomic_or_reset defaultConfig updSpeedOk).2 (by decide)⟩

/-- C3 counterexample: in the active column colHead the most recently
spawned drop is dropNew at list index 1 (spawns append at the tail), yet
the renderer draws it at its scaled color (0,127,0), not at full white;
white goes to index 0, the oldest drop. -/
theorem head_glyph_counterexample :
    colHead.active = true ∧
    renderColumnColors colHead = [(255, 255, 255), (0, 127, 0)] ∧
    ((0, 127, 0) : ℤ × ℤ × ℤ) ≠ (255, 255, 255) := by
  refine ⟨rfl, ?_, by decide⟩
  norm_num [renderColumnColors, colHead, dropOld, dropNew, renderColor, scaledColor,
    pyTrunc, List.enum, List.enumFrom, Rat.mkRat_eq_div, min_def]

/-- C3 as amended: a spawn always appends the new drop (at brightness 1)
at the TAIL of the drop list, so index 0 holds the oldest surviving
drop, and the renderer draws index 0 of an active column at full white
(255,255,255) regardless of brightness while every other drop — and
every drop of an inactive column — is drawn at its color componentwise
scaled by its brightness and clamped to at most 255. -/
theorem head_glyph_is_oldest :
    (∀ (col : RainColumn) (config : MatrixConfig) (t : ℤ) (o : ColumnOracle),
      (col.update config t o).drops = evolveDrops config o col.drops ∨
      ∃ nd, (col.update config t o).drops = evolveDrops config o col.drops ++ [nd] ∧
        nd.brightness = 1) ∧
    (∀ (col : RainColumn) (i : ℕ),
      (renderColumnColors col).get? i =
        (col.drops.get? i).map (fun d =>
          if i = 0 ∧ col.active = true then (255, 255, 255) else scaledColor d)) := by
  constructor
  · intro col config t o
    simp only [RainColumn.update]
    by_cases hc : (col.active && decide (col.next_spawn_time ≤ t) &&
        decide (((evolveDrops config o col.drops).length : ℤ) < col.length)) = true
    · rw [if_pos hc]
      exact Or.inr ⟨_, rfl, rfl⟩
    · rw [if_neg hc]
      exact Or.inl rfl
  · intro col i
    unfold renderColumnColors
    rw [List.get?_map, List.get?_enum]
    cases col.drops.get? i <;> simp [renderColor]

theorem dropIter_brightness_lb (config : MatrixConfig) (oracle : ℕ → Bool × ℕ)
    (d : RainDrop)
    (hb : 1/5 - 1/100 * config.fading_speed ≤ d.brightness) :
    ∀ n : ℕ, 1/5 - 1/100 * config.fading_speed ≤ (dropIter config oracle d n).brightness := by
  intro n
  induction n with
  | zero => exact hb
  | succ m ih =>
    have hstep : dropIter config oracle d (m + 1)
        = (dropIter config oracle d m).update config (oracle m).1 (oracle m).2 := rfl
    rw [hstep]
    simp only [RainDrop.update]
    by_cases h : (dropIter config oracle d m).brightness > 1/5
    · rw [if_pos h]; linarith
    · rw [if_neg h]; exact ih

/-- C2 as amended: for a drop starting at brightness 1 under any
configuration with fading_speed within [0.01, 0.5], the brightness after
any number of ticks never falls below 0.2 - 0.01 * fading_speed, and in
particular never below 0.195 (it can dip strictly below 0.2 by at most
one decay step). -/
theorem brightness_decay_floor (config : MatrixConfig) (oracle : ℕ → Bool × ℕ)
    (d : RainDrop) (hfs1 : 1/100 ≤ config.fading_speed)
    (hfs2 : config.fading_speed ≤ 1/2) (hb : d.brightness = 1) (n : ℕ) :
    1/5 - 1/100 * config.fading_speed ≤ (dropIter config oracle d n).brightness ∧
    (39 : ℚ)/200 ≤ (dropIter config oracle d n).brightness := by
  have h0 : 1/5 - 1/100 * config.fading_speed ≤ d.brightness := by
    rw [hb]; linarith
  have h1 := dropIter_brightness_lb config oracle d h0 n
  exact ⟨h1, by linarith⟩

/-- Witness for brightness_decay_floor: three ticks on a full-brightness
drop under the default configuration stay at or above 0.195. -/
theorem brightness_decay_floor_witness :
    (39 : ℚ)/200 ≤ (dropIter defaultConfig (fun _ => (false, 0)) dropUnit 3).brightness :=
  (brightness_decay_floor defaultConfig (fun _ => (false, 0)) dropUnit
    (by norm_num [defaultConfig, defaultFields, Rat.mkRat_eq_div])
    (by norm_num [defaultConfig, defaultFields, Rat.mkRat_eq_div]) rfl 3).2

theorem dropIter_brightness_closed (config : MatrixConfig) (oracle : ℕ → Bool × ℕ)
    (d : RainDrop) (hfs : 0 ≤ config.fading_speed) :
    ∀ m : ℕ, 1/5 + (m : ℚ) * (1/100 * config.fading_speed) < d.brightness →
      (dropIter config oracle d m).brightness
        = d.brightness - (m : ℚ) * (1/100 * config.fading_speed) := by
  intro m
  induction m with
  | zero => intro _; simp [dropIter]
  | succ k ih =>
    intro h
    have hdd : 0 ≤ 1/100 * config.fading_speed := by linarith
    have hcast : ((k + 1 : ℕ) : ℚ) = (k : ℚ) + 1 := by push_cast; ring
    rw [hcast] at h
    have hk : 1/5 + (k : ℚ) * (1/100 * config.fading_speed) < d.brightness := by
      nlinarith [hdd]
    have hbk := ih hk
    have hstep : dropIter config oracle d (k + 1)
        = (dropIter config oracle d k).update config (oracle k).1 (oracle k).2 := rfl
    rw [hstep]
    simp only [RainDrop.update]
    have hgt : (dropIter config oracle d k).brightness > 1/5 := by
      rw [hbk]; linarith
    rw [if_pos hgt, hbk, hcast]
    ring

/-- C2 counterexample: under the default configuration (fading_speed
0.07, inside [0.01, 0.5]) a drop starting at brightness 1 reaches
brightness 0.1999 < 0.2 after 1143 ticks, so the 0.2 decay floor of the
claim is crossed. -/
theorem brightness_floor_counterexample :
    mkRat 1 100 ≤ defaultConfig.fading_speed ∧
    defaultConfig.fading_speed ≤ mkRat 1 2 ∧
    dropUnit.brightness = 1 ∧
    (dropIter defaultConfig (fun _ => (false, 0)) dropUnit 1143).brightness < 1/5 := by
  refine ⟨by decide, by decide, rfl, ?_⟩
  have hfs : defaultConfig.fading_speed = mkRat 7 100 := rfl
  have h1142 := dropIter_brightness_closed defaultConfig (fun _ => (false, 0)) dropUnit
    (by rw [hfs]; norm_num [Rat.mkRat_eq_div]) 1142
    (by norm_num [hfs, Rat.mkRat_eq_div, dropUnit])
  have hstep : dropIter defaultConfig (fun _ => (false, 0)) dropUnit 1143
      = (dropIter defaultConfig (fun _ => (false, 0)) dropUnit 1142).update
          defaultConfig false 0 := rfl
  rw [hstep]
  simp only [RainDrop.update]
  have hgt : (dropIter defaultConfig (fun _ => (false, 0)) dropUnit 1142).brightness
      > 1/5 := by
    rw [h1142]; norm_num [hfs, Rat.mkRat_eq_div, dropUnit]
  rw [if_pos hgt, h1142]
  norm_num [hfs, Rat.mkRat_eq_div, dropUnit]

theorem pyRound_intCast (m : ℤ) : pyRound ((m : ℚ)) = m := by
  norm_num [pyRound, Int.floor_intCast]

theorem round2_exact (q : ℚ) (m : ℤ) (h : q * 100 = (m : ℚ)) :
    ((pyRound (q * 100) : ℤ) : ℚ) / 100 = q := by
  rw [h, pyRound_intCast, ← h]
  ring

/-- C7 as amended: for a dragging slider with min_val < max_val, a
positive track width and bounds that are exact 2-decimal values
(min_val * 100 and max_val * 100 integral), a motion sample whose
pointer x lies at or beyond the track bounds sets value exactly to
min_val (at or left of rect.x) or exactly to max_val (at or right of
rect.x + width) after the 2-decimal rounding step, invokes the callback
with that value and reports the event handled. -/
theorem slider_drag_clamps (s : Slider) (px py : ℤ)
    (hlt : s.min_val < s.max_val) (hw : 0 < s.rect.w) (hdrag : s.dragging = true)
    (hmin : ∃ m : ℤ, s.min_val * 100 = (m : ℚ))
    (hmax : ∃ m : ℤ, s.max_val * 100 = (m : ℚ)) :
    (px ≤ s.rect.x →
      (s.handleEvent (UIEvent.mouseMotion px py)).1.value = s.min_val ∧
      (s.handleEvent (UIEvent.mouseMotion px py)).2.1 = some s.min_val ∧
      (s.handleEvent (UIEvent.mouseMotion px py)).2.2 = true) ∧
    (s.rect.x + s.rect.w ≤ px →
      (s.handleEvent (UIEvent.mouseMotion px py)).1.value = s.max_val ∧
      (s.handleEvent (UIEvent.mouseMotion px py)).2.1 = some s.max_val ∧
      (s.handleEvent (UIEvent.mouseMotion px py)).2.2 = true) := by
  obtain ⟨mn, hmn⟩ := hmin
  obtain ⟨mx, hmx⟩ := hmax
  constructor
  · intro hpx
    have hy0 : min (px - s.rect.x) s.rect.w ≤ 0 :=
      le_trans (min_le_left _ _) (by omega)
    have hrel : max 0 (min (px - s.rect.x) s.rect.w) = 0 := max_eq_left hy0
    simp [Slider.handleEvent, hdrag, hrel, round2_exact s.min_val mn hmn]
  · intro hpx
    have hminw : min (px - s.rect.x) s.rect.w = s.rect.w := min_eq_right (by omega)
    have hrel : max 0 (min (px - s.rect.x) s.rect.w) = s.rect.w := by
      rw [hminw]; exact max_eq_right (by omega)
    have hwne : (s.rect.w : ℚ) ≠ 0 := Int.cast_ne_zero.mpr (by omega)
    have e2 : s.min_val + (s.max_val - s.min_val) * ((s.rect.w : ℚ) / (s.rect.w : ℚ))
        = s.max_val := by
      rw [div_self hwne]; ring
    simp [Slider.handleEvent, hdrag, hrel, e2, round2_exact s.max_val mx hmx]

/-- Witness for slider_drag_clamps: dragging sliderTenth with the pointer
at x = 5, left of its track start 10, yields exactly min_val 1 and a
callback with 1. -/
theorem slider_drag_clamps_witness :
    (sliderTenth.handleEvent (UIEvent.mouseMotion 5 0)).1.value = sliderTenth.min_val ∧
    (sliderTenth.handleEvent (UIEvent.mouseMotion 5 0)).2.1 = some sliderTenth.min_val ∧
    (sliderTenth.handleEvent (UIEvent.mouseMotion 5 0)).2.2 = true :=
  (slider_drag_clamps sliderTenth 5 0 (by decide) (by decide) rfl
    ⟨100, by norm_num [sliderTenth]⟩ ⟨500, by norm_num [sliderTenth]⟩).1 (by decide)

/-- C7 counterexample: sliderBad has min_val 0.001; a drag with the
pointer at x = -5, left of the track, yields value 0 (the 2-decimal
rounding of 0.001), not exactly min_val, refuting the claim for general
sliders. -/
theorem slider_clamp_counterexample :
    sliderBad.dragging = true ∧ 0 < sliderBad.rect.w ∧
    sliderBad.min_val < sliderBad.max_val ∧ (-5 : ℤ) ≤ sliderBad.rect.x ∧
    (sliderBad.handleEvent (UIEvent.mouseMotion (-5) 0)).1.value ≠ sliderBad.min_val := by
  refine ⟨rfl, by decide, by decide, by decide, ?_⟩
  norm_num [Slider.handleEvent, sliderBad, pyRound, Rat.mkRat_eq_div, min_def, max_def]
